import Mathlib

/-!
Shallow embedding of the four API mixins of `reolinkapipy`
(`alarm.py`, `ptz.py`, `record.py`, `zoom.py`).

Each Python method builds a JSON body — a list of command descriptors
`{cmd, action, param}` — and forwards it to the shared dispatcher
`self._execute_command(command_name, body)`, returning its result.
The dispatcher lives outside this excerpt, so it is embedded as an
abstract function carried by the `Camera` structure; the result type `R`
is a type parameter, which forces every method to return a dispatcher
result unmodified.

Numeric parameters are annotated `float` in the Python source but the
code only places them into the body unchanged (no arithmetic is ever
performed), so they are embedded as `Int`.  Python dicts preserve
insertion order, so JSON objects are embedded as ordered association
lists.
-/

namespace Reolink

/-- A JSON value as used by the mixins: numbers, strings, nested objects. -/
inductive JValue where
  | num (n : Int)
  | str (s : String)
  | obj (fields : List (String × JValue))

/-- The wire-level command descriptor `{"cmd": …, "action": …, "param": …}`. -/
structure CommandDesc where
  cmd : String
  action : Int
  param : List (String × JValue)

/-- The out-of-scope collaborator: `self._execute_command(command_name, body)`.
`R` is abstract, so a method can only produce an `R` by calling it. -/
structure Camera (R : Type) where
  _execute_command : String → List CommandDesc → R

variable {R : Type}

/-! ### alarm.py — AlarmAPIMixin -/

/-- `AlarmAPIMixin.get_alarm_motion` from `alarm.py`. -/
def get_alarm_motion (self : Camera R) (channel : Int := 0) : R :=
  let body := [CommandDesc.mk "GetAlarm" 1
    [("Alarm", JValue.obj [("channel", JValue.num channel), ("type", JValue.str "md")])]]
  self._execute_command "GetAlarm" body

/-! ### ptz.py — PtzAPIMixin -/

/-- `PtzAPIMixin.get_ptz_check_state` from `ptz.py`. -/
def get_ptz_check_state (self : Camera R) (channel : Int := 0) : R :=
  let body := [CommandDesc.mk "GetPtzCheckState" 1 [("channel", JValue.num channel)]]
  self._execute_command "GetPtzCheckState" body

/-- `PtzAPIMixin.get_ptz_presets` from `ptz.py`. -/
def get_ptz_presets (self : Camera R) (channel : Int := 0) : R :=
  let body := [CommandDesc.mk "GetPtzPreset" 1 [("channel", JValue.num channel)]]
  self._execute_command "GetPtzPreset" body

/-- `PtzAPIMixin.perform_calibration` from `ptz.py`. -/
def perform_calibration (self : Camera R) (channel : Int := 0) : R :=
  let data := [CommandDesc.mk "PtzCheck" 0 [("channel", JValue.num channel)]]
  self._execute_command "PtzCheck" data

/-- `PtzAPIMixin._send_operation` from `ptz.py`.  Python's optional `index`
(default `None`) becomes `Option Int`; `param['id'] = index` appends the
key at the end of the insertion-ordered dict. -/
def _send_operation (self : Camera R) (operation : String) (speed : Int)
    (index : Option Int := none) (channel : Int := 0) : R :=
  let param := [("channel", JValue.num channel), ("op", JValue.str operation),
    ("speed", JValue.num speed)]
  let param := match index with
    | some i => param ++ [("id", JValue.num i)]
    | none => param
  let data := [CommandDesc.mk "PtzCtrl" 0 param]
  self._execute_command "PtzCtrl" data

/-- `PtzAPIMixin._send_noparm_operation` from `ptz.py`. -/
def _send_noparm_operation (self : Camera R) (operation : String) (channel : Int := 0) : R :=
  let data := [CommandDesc.mk "PtzCtrl" 0
    [("channel", JValue.num channel), ("op", JValue.str operation)]]
  self._execute_command "PtzCtrl" data

/-- `PtzAPIMixin._send_set_preset` from `ptz.py`.  Note the source passes the
literal `'PtzCtrl'` as the command name to `_execute_command` although the
descriptor's `cmd` is `"SetPtzPreset"`. -/
def _send_set_preset (self : Camera R) (enable : Int) (preset : Int := 1)
    (name : String := "pos1") (channel : Int := 0) : R :=
  let data := [CommandDesc.mk "SetPtzPreset" 0
    [("PtzPreset", JValue.obj [("channel", JValue.num channel), ("enable", JValue.num enable),
      ("id", JValue.num preset), ("name", JValue.str name)])]]
  self._execute_command "PtzCtrl" data

/-- `PtzAPIMixin.go_to_preset` from `ptz.py`. -/
def go_to_preset (self : Camera R) (speed : Int := 60) (index : Int := 1)
    (channel : Int := 0) : R :=
  _send_operation self "ToPos" speed (some index) channel

/-- `PtzAPIMixin.add_preset` from `ptz.py`. -/
def add_preset (self : Camera R) (preset : Int := 1) (name : String := "pos1")
    (channel : Int := 0) : R :=
  _send_set_preset self 1 preset name channel

/-- `PtzAPIMixin.remove_preset` from `ptz.py`. -/
def remove_preset (self : Camera R) (preset : Int := 1) (name : String := "pos1")
    (channel : Int := 0) : R :=
  _send_set_preset self 0 preset name channel

/-- `PtzAPIMixin.move_right` from `ptz.py`. -/
def move_right (self : Camera R) (speed : Int := 25) (channel : Int := 0) : R :=
  _send_operation self "Right" speed none channel

/-- `PtzAPIMixin.move_right_up` from `ptz.py`. -/
def move_right_up (self : Camera R) (speed : Int := 25) (channel : Int := 0) : R :=
  _send_operation self "RightUp" speed none channel

/-- `PtzAPIMixin.move_right_down` from `ptz.py`. -/
def move_right_down (self : Camera R) (speed : Int := 25) (channel : Int := 0) : R :=
  _send_operation self "RightDown" speed none channel

/-- `PtzAPIMixin.move_left` from `ptz.py`. -/
def move_left (self : Camera R) (speed : Int := 25) (channel : Int := 0) : R :=
  _send_operation self "Left" speed none channel

/-- `PtzAPIMixin.move_left_up` from `ptz.py`. -/
def move_left_up (self : Camera R) (speed : Int := 25) (channel : Int := 0) : R :=
  _send_operation self "LeftUp" speed none channel

/-- `PtzAPIMixin.move_left_down` from `ptz.py`. -/
def move_left_down (self : Camera R) (speed : Int := 25) (channel : Int := 0) : R :=
  _send_operation self "LeftDown" speed none channel

/-- `PtzAPIMixin.move_up` from `ptz.py`. -/
def move_up (self : Camera R) (speed : Int := 25) (channel : Int := 0) : R :=
  _send_operation self "Up" speed none channel

/-- `PtzAPIMixin.move_down` from `ptz.py`. -/
def move_down (self : Camera R) (speed : Int := 25) (channel : Int := 0) : R :=
  _send_operation self "Down" speed none channel

/-- `PtzAPIMixin.stop_ptz` from `ptz.py`. -/
def stop_ptz (self : Camera R) (channel : Int := 0) : R :=
  _send_noparm_operation self "Stop" channel

/-- `PtzAPIMixin.auto_movement` from `ptz.py`. -/
def auto_movement (self : Camera R) (speed : Int := 25) (channel : Int := 0) : R :=
  _send_operation self "Auto" speed none channel

/-! ### zoom.py — ZoomAPIMixin -/

/-- `ZoomAPIMixin._start_operation` from `zoom.py`. -/
def _start_operation (self : Camera R) (operation : String) (speed : Int)
    (channel : Int := 0) : R :=
  let data := [CommandDesc.mk "PtzCtrl" 0
    [("channel", JValue.num channel), ("op", JValue.str operation), ("speed", JValue.num speed)]]
  self._execute_command "PtzCtrl" data

/-- `ZoomAPIMixin._stop_zooming_or_focusing` from `zoom.py`. -/
def _stop_zooming_or_focusing (self : Camera R) (channel : Int := 0) : R :=
  let data := [CommandDesc.mk "PtzCtrl" 0
    [("channel", JValue.num channel), ("op", JValue.str "Stop")]]
  self._execute_command "PtzCtrl" data

/-- `ZoomAPIMixin.get_zoom_focus` from `zoom.py`.  Note the source uses
`action: 0` although this is a query. -/
def get_zoom_focus (self : Camera R) (channel : Int := 0) : R :=
  let data := [CommandDesc.mk "GetZoomFocus" 0 [("channel", JValue.num channel)]]
  self._execute_command "GetZoomFocus" data

/-- `ZoomAPIMixin.start_zoom_pos` from `zoom.py`. -/
def start_zoom_pos (self : Camera R) (position : Int) (channel : Int := 0) : R :=
  let data := [CommandDesc.mk "StartZoomFocus" 0
    [("ZoomFocus", JValue.obj [("channel", JValue.num channel), ("op", JValue.str "ZoomPos"),
      ("pos", JValue.num position)])]]
  self._execute_command "StartZoomFocus" data

/-- `ZoomAPIMixin.start_focus_pos` from `zoom.py`. -/
def start_focus_pos (self : Camera R) (position : Int) (channel : Int := 0) : R :=
  let data := [CommandDesc.mk "StartZoomFocus" 0
    [("ZoomFocus", JValue.obj [("channel", JValue.num channel), ("op", JValue.str "FocusPos"),
      ("pos", JValue.num position)])]]
  self._execute_command "StartZoomFocus" data

/-- `ZoomAPIMixin.get_auto_focus` from `zoom.py`.  Note the source uses
`action: 0` although this is a query. -/
def get_auto_focus (self : Camera R) (channel : Int := 0) : R :=
  let data := [CommandDesc.mk "GetAutoFocus" 0 [("channel", JValue.num channel)]]
  self._execute_command "GetAutoFocus" data

/-- `ZoomAPIMixin.set_auto_focus` from `zoom.py`: Python's
`1 if disable else 0`. -/
def set_auto_focus (self : Camera R) (disable : Bool) (channel : Int := 0) : R :=
  let data := [CommandDesc.mk "SetAutoFocus" 0
    [("AutoFocus", JValue.obj [("channel", JValue.num channel),
      ("disable", JValue.num (if disable then 1 else 0))])]]
  self._execute_command "SetAutoFocus" data

/-- `ZoomAPIMixin.start_zooming_in` from `zoom.py`. -/
def start_zooming_in (self : Camera R) (speed : Int := 60) (channel : Int := 0) : R :=
  _start_operation self "ZoomInc" speed channel

/-- `ZoomAPIMixin.start_zooming_out` from `zoom.py`. -/
def start_zooming_out (self : Camera R) (speed : Int := 60) (channel : Int := 0) : R :=
  _start_operation self "ZoomDec" speed channel

/-- `ZoomAPIMixin.stop_zooming` from `zoom.py`. -/
def stop_zooming (self : Camera R) (channel : Int := 0) : R :=
  _stop_zooming_or_focusing self channel

/-- `ZoomAPIMixin.start_focusing_in` from `zoom.py`. -/
def start_focusing_in (self : Camera R) (speed : Int := 32) (channel : Int := 0) : R :=
  _start_operation self "FocusInc" speed channel

/-- `ZoomAPIMixin.start_focusing_out` from `zoom.py`. -/
def start_focusing_out (self : Camera R) (speed : Int := 32) (channel : Int := 0) : R :=
  _start_operation self "FocusDec" speed channel

/-- `ZoomAPIMixin.stop_focusing` from `zoom.py`. -/
def stop_focusing (self : Camera R) (channel : Int := 0) : R :=
  _stop_zooming_or_focusing self channel

/-! ### record.py — RecordAPIMixin -/

/-- `RecordAPIMixin.get_recording_encoding` from `record.py`. -/
def get_recording_encoding (self : Camera R) (channel : Int := 0) : R :=
  let body := [CommandDesc.mk "GetEnc" 1 [("channel", JValue.num channel)]]
  self._execute_command "GetEnc" body

/-- `RecordAPIMixin.get_recording_advanced` from `record.py`. -/
def get_recording_advanced (self : Camera R) (channel : Int := 0) : R :=
  let body := [CommandDesc.mk "GetRec" 1 [("channel", JValue.num channel)]]
  self._execute_command "GetRec" body

/-- `RecordAPIMixin.get_recording_advanced_v20` from `record.py`.  Note the
source uses `action: 0` although this is a query. -/
def get_recording_advanced_v20 (self : Camera R) (channel : Int := 0) : R :=
  let body := [CommandDesc.mk "GetRecV20" 0 [("channel", JValue.num channel)]]
  self._execute_command "GetRecV20" body

/-- `RecordAPIMixin.set_recording_advanced_v20_enable` from `record.py`.
This is the one method whose body carries no channel field at all. -/
def set_recording_advanced_v20_enable (self : Camera R) (enable : Int := 0) : R :=
  let body := [CommandDesc.mk "SetRecV20" 0 [("Rec", JValue.obj [("enable", JValue.num enable)])]]
  self._execute_command "SetRecV20" body

/-- `RecordAPIMixin.set_recording_encoding` from `record.py`. -/
def set_recording_encoding (self : Camera R) ( audio : Int := 0)
    (main_bit_rate : Int := 8192) (main_frame_rate : Int := 8)
    (main_profile : String := "High") (main_size : String := "2560*1440")
    (sub_bit_rate : Int := 160) (sub_frame_rate : Int := 7)
    (sub_profile : String := "High") (sub_size : String := "640*480")
    (channel : Int := 0) : R :=
  let body := [CommandDesc.mk "SetEnc" 0
    [("Enc", JValue.obj
      [("audio", JValue.num audio),
       ("channel", JValue.num channel),
       ("mainStream", JValue.obj
         [("bitRate", JValue.num main_bit_rate), ("frameRate", JValue.num main_frame_rate),
          ("profile", JValue.str main_profile), ("size", JValue.str main_size)]),
       ("subStream", JValue.obj
         [("bitRate", JValue.num sub_bit_rate), ("frameRate", JValue.num sub_frame_rate),
          ("profile", JValue.str sub_profile), ("size", JValue.str sub_size)])])]]
  self._execute_command "SetEnc" body

/-! ### The public interface as one enumeration

`MethodCall` enumerates every public method of the four mixins together
with its arguments (the leading-underscore helpers of `ptz.py` and
`zoom.py` are private); `runMethod` invokes the corresponding embedded
method.  This lets "for every public method" claims be stated as a
quantification over `MethodCall`. -/

/-- One invocation of a public mixin method with its arguments. -/
inductive MethodCall where
  | get_alarm_motion (channel : Int)
  | get_ptz_check_state (channel : Int)
  | get_ptz_presets (channel : Int)
  | perform_calibration (channel : Int)
  | go_to_preset (speed index channel : Int)
  | add_preset (preset : Int) (name : String) (channel : Int)
  | remove_preset (preset : Int) (name : String) (channel : Int)
  | move_right (speed channel : Int)
  | move_right_up (speed channel : Int)
  | move_right_down (speed channel : Int)
  | move_left (speed channel : Int)
  | move_left_up (speed channel : Int)
  | move_left_down (speed channel : Int)
  | move_up (speed channel : Int)
  | move_down (speed channel : Int)
  | stop_ptz (channel : Int)
  | auto_movement (speed channel : Int)
  | get_zoom_focus (channel : Int)
  | start_zoom_pos (position channel : Int)
  | start_focus_pos (position channel : Int)
  | get_auto_focus (channel : Int)
  | set_auto_focus (disable : Bool) (channel : Int)
  | start_zooming_in (speed channel : Int)
  | start_zooming_out (speed channel : Int)
  | stop_zooming (channel : Int)
  | start_focusing_in (speed channel : Int)
  | start_focusing_out (speed channel : Int)
  | stop_focusing (channel : Int)
  | get_recording_encoding (channel : Int)
  | get_recording_advanced (channel : Int)
  | get_recording_advanced_v20 (channel : Int)
  | set_recording_advanced_v20_enable (enable : Int)
  | set_recording_encoding ( audio main_bit_rate main_frame_rate : Int)
      (main_profile main_size : String) (sub_bit_rate sub_frame_rate : Int)
      (sub_profile sub_size : String) (channel : Int)

/-- Invoke a public method on a camera. -/
def runMethod (self : Camera R) : MethodCall → R
  | .get_alarm_motion c => get_alarm_motion self c
  | .get_ptz_check_state c => get_ptz_check_state self c
  | .get_ptz_presets c => get_ptz_presets self c
  | .perform_calibration c => perform_calibration self c
  | .go_to_preset s i c => go_to_preset self s i c
  | .add_preset p n c => add_preset self p n c
  | .remove_preset p n c => remove_preset self p n c
  | .move_right s c => move_right self s c
  | .move_right_up s c => move_right_up self s c
  | .move_right_down s c => move_right_down self s c
  | .move_left s c => move_left self s c
  | .move_left_up s c => move_left_up self s c
  | .move_left_down s c => move_left_down self s c
  | .move_up s c => move_up self s c
  | .move_down s c => move_down self s c
  | .stop_ptz c => stop_ptz self c
  | .auto_movement s c => auto_movement self s c
  | .get_zoom_focus c => get_zoom_focus self c
  | .start_zoom_pos p c => start_zoom_pos self p c
  | .start_focus_pos p c => start_focus_pos self p c
  | .get_auto_focus c => get_auto_focus self c
  | .set_auto_focus d c => set_auto_focus self d c
  | .start_zooming_in s c => start_zooming_in self s c
  | .start_zooming_out s c => start_zooming_out self s c
  | .stop_zooming c => stop_zooming self c
  | .start_focusing_in s c => start_focusing_in self s c
  | .start_focusing_out s c => start_focusing_out self s c
  | .stop_focusing c => stop_focusing self c
  | .get_recording_encoding c => get_recording_encoding self c
  | .get_recording_advanced c => get_recording_advanced self c
  | .get_recording_advanced_v20 c => get_recording_advanced_v20 self c
  | .set_recording_advanced_v20_enable e => set_recording_advanced_v20_enable self e
  | .set_recording_encoding a mbr mfr mp ms sbr sfr sp ss c =>
      set_recording_encoding self a mbr mfr mp ms sbr sfr sp ss c

/-- A dispatcher that records its single call: it returns the command name
and body it was handed, untouched. -/
def recorder : Camera (String × List CommandDesc) :=
  Camera.mk (fun cmdName body => (cmdName, body))

/-- The request (dispatch name, body) a public method sends. -/
def requestOf (mc : MethodCall) : String × List CommandDesc :=
  runMethod recorder mc

/-- The command name passed as first argument of `_execute_command`. -/
def nameOf (mc : MethodCall) : String := (requestOf mc).1

/-- The body (list of command descriptors) passed to `_execute_command`. -/
def bodyOf (mc : MethodCall) : List CommandDesc := (requestOf mc).2

/-- The `cmd` fields of the descriptors in the body. -/
def cmdsOf (mc : MethodCall) : List String := (bodyOf mc).map CommandDesc.cmd

/-- The `action` fields of the descriptors in the body. -/
def actionsOf (mc : MethodCall) : List Int := (bodyOf mc).map CommandDesc.action

/-- Look a key up in an ordered JSON object (first occurrence). -/
def objGet (k : String) : List (String × JValue) → Option JValue
  | [] => none
  | (k2, v) :: rest => if k2 == k then some v else objGet k rest

/-- The channel value carried by a `param` object: either a top-level
`"channel"` key or a `"channel"` key of a directly nested object (the
source never nests it deeper). -/
def paramChannelVal (p : List (String × JValue)) : Option JValue :=
  (objGet "channel" p).orElse (fun _ =>
    p.findSome? (fun q => match q.2 with
      | JValue.obj o => objGet "channel" o
      | _ => none))

/-- Whether a `param` object carries a channel field at all. -/
def paramHasChannel (p : List (String × JValue)) : Bool :=
  (paramChannelVal p).isSome

/-- Whether a `param` object's channel value is the number `0`. -/
def paramChannelIsZero (p : List (String × JValue)) : Bool :=
  match paramChannelVal p with
  | some (JValue.num 0) => true
  | _ => false

/-- The `channel` argument a public method was invoked with;
`set_recording_advanced_v20_enable` is the one method without one. -/
def channelArg : MethodCall → Option Int
  | .get_alarm_motion c => some c
  | .get_ptz_check_state c => some c
  | .get_ptz_presets c => some c
  | .perform_calibration c => some c
  | .go_to_preset _ _ c => some c
  | .add_preset _ _ c => some c
  | .remove_preset _ _ c => some c
  | .move_right _ c => some c
  | .move_right_up _ c => some c
  | .move_right_down _ c => some c
  | .move_left _ c => some c
  | .move_left_up _ c => some c
  | .move_left_down _ c => some c
  | .move_up _ c => some c
  | .move_down _ c => some c
  | .stop_ptz c => some c
  | .auto_movement _ c => some c
  | .get_zoom_focus c => some c
  | .start_zoom_pos _ c => some c
  | .start_focus_pos _ c => some c
  | .get_auto_focus c => some c
  | .set_auto_focus _ c => some c
  | .start_zooming_in _ c => some c
  | .start_zooming_out _ c => some c
  | .stop_zooming c => some c
  | .start_focusing_in _ c => some c
  | .start_focusing_out _ c => some c
  | .stop_focusing c => some c
  | .get_recording_encoding c => some c
  | .get_recording_advanced c => some c
  | .get_recording_advanced_v20 c => some c
  | .set_recording_advanced_v20_enable _ => none
  | .set_recording_encoding _ _ _ _ _ _ _ _ _ c => some c

/-- The bodies produced when every method that has a channel parameter is
invoked with all its arguments at their source defaults (mandatory
arguments — `disable`, `position` — given a sample value). -/
def defaultBodies : List (List CommandDesc) :=
  [(get_alarm_motion recorder).2,
   (get_ptz_check_state recorder).2,
   (get_ptz_presets recorder).2,
   (perform_calibration recorder).2,
   (go_to_preset recorder).2,
   (add_preset recorder).2,
   (remove_preset recorder).2,
   (move_right recorder).2,
   (move_right_up recorder).2,
   (move_right_down recorder).2,
   (move_left recorder).2,
   (move_left_up recorder).2,
   (move_left_down recorder).2,
   (move_up recorder).2,
   (move_down recorder).2,
   (stop_ptz recorder).2,
   (auto_movement recorder).2,
   (get_zoom_focus recorder).2,
   (start_zoom_pos recorder 1).2,
   (start_focus_pos recorder 1).2,
   (get_auto_focus recorder).2,
   (set_auto_focus recorder true).2,
   (start_zooming_in recorder).2,
   (start_zooming_out recorder).2,
   (stop_zooming recorder).2,
   (start_focusing_in recorder).2,
   (start_focusing_out recorder).2,
   (stop_focusing recorder).2,
   (get_recording_encoding recorder).2,
   (get_recording_advanced recorder).2,
   (get_recording_advanced_v20 recorder).2,
   (set_recording_encoding recorder).2]

/-- The `get_*` query methods (the spec's "get (query) operations"). -/
def isQueryMethod : MethodCall → Bool
  | .get_alarm_motion _ => true
  | .get_ptz_check_state _ => true
  | .get_ptz_presets _ => true
  | .get_zoom_focus _ => true
  | .get_auto_focus _ => true
  | .get_recording_encoding _ => true
  | .get_recording_advanced _ => true
  | .get_recording_advanced_v20 _ => true
  | _ => false

/-- The three query methods whose descriptors carry `action: 0` in the
source: `get_zoom_focus`, `get_auto_focus`, `get_recording_advanced_v20`. -/
def isActionZeroQuery : MethodCall → Bool
  | .get_zoom_focus _ => true
  | .get_auto_focus _ => true
  | .get_recording_advanced_v20 _ => true
  | _ => false

/-- The two methods routed through `_send_set_preset`. -/
def usesSetPreset : MethodCall → Bool
  | .add_preset _ _ _ => true
  | .remove_preset _ _ _ => true
  | _ => false

/-- Overwrite the value at a key of an ordered JSON object (keys and order
untouched). -/
def objSet (k : String) (v : JValue) : List (String × JValue) → List (String × JValue)
  | [] => []
  | (k2, v2) :: rest => (k2, if k2 == k then v else v2) :: objSet k v rest

/-- Overwrite every `"enable"` field found one level inside the params of a
body, leaving everything else identical.  Used to state that two bodies
differ only in that field. -/
def setEnableInBody (e : Int) (b : List CommandDesc) : List CommandDesc :=
  b.map (fun d => CommandDesc.mk d.cmd d.action
    (d.param.map (fun q => match q with
      | (k, JValue.obj o) => (k, JValue.obj (objSet "enable" (JValue.num e) o))
      | other => other)))

/-- The `PtzPreset.enable` value of a single-descriptor body. -/
def presetEnable (b : List CommandDesc) : Option JValue :=
  match b with
  | [d] => match objGet "PtzPreset" d.param with
    | some (JValue.obj o) => objGet "enable" o
    | _ => none
  | _ => none

/-! ### Theorems -/

/-- C1: every public method of the four mixins builds exactly one command
descriptor, wraps it in a single-element sequence, calls
`_execute_command` exactly once with that sequence, and (the result type
being abstract) returns the dispatcher's result unmodified. -/
theorem dispatch_once_single_element (mc : MethodCall) {R : Type} (self : Camera R) :
    ∃ cmdName d, runMethod self mc = self._execute_command cmdName [d] := by
  cases mc <;> exact ⟨_, _, rfl⟩

/-- C2: `go_to_preset(speed=60, index=1, channel=0)` hands the dispatcher
exactly the body
`[{"cmd":"PtzCtrl","action":0,"param":{"channel":0,"op":"ToPos","speed":60,"id":1}}]`. -/
theorem go_to_preset_body {R : Type} (self : Camera R) :
    go_to_preset self 60 1 0 = self._execute_command "PtzCtrl"
      [CommandDesc.mk "PtzCtrl" 0
        [("channel", JValue.num 0), ("op", JValue.str "ToPos"),
         ("speed", JValue.num 60), ("id", JValue.num 1)]] := rfl

/-- C3: `add_preset(preset=2, name="pos2")` (channel left at its default 0)
builds the descriptor `{"cmd":"SetPtzPreset","action":0,"param":{"PtzPreset":
{"channel":0,"enable":1,"id":2,"name":"pos2"}}}`. -/
theorem add_preset_body {R : Type} (self : Camera R) :
    add_preset self 2 "pos2" = self._execute_command "PtzCtrl"
      [CommandDesc.mk "SetPtzPreset" 0
        [("PtzPreset", JValue.obj
          [("channel", JValue.num 0), ("enable", JValue.num 1),
           ("id", JValue.num 2), ("name", JValue.str "pos2")])]] := rfl

/-- C4: for every choice of preset, name and channel, the bodies built by
`add_preset` and `remove_preset` differ only in the `PtzPreset.enable`
field: each is the other with that field overwritten, and the field is 1
for add and 0 for remove. -/
theorem preset_add_remove_differ_only_enable (preset : Int) (name : String) (channel : Int) :
    bodyOf (.add_preset preset name channel)
        = setEnableInBody 1 (bodyOf (.remove_preset preset name channel))
    ∧ bodyOf (.remove_preset preset name channel)
        = setEnableInBody 0 (bodyOf (.add_preset preset name channel))
    ∧ presetEnable (bodyOf (.add_preset preset name channel)) = some (JValue.num 1)
    ∧ presetEnable (bodyOf (.remove_preset preset name channel)) = some (JValue.num 0) :=
  ⟨rfl, rfl, rfl, rfl⟩

/-- C5 (counterexample): the body built by
`set_recording_advanced_v20_enable` — param `{"Rec":{"enable":…}}` —
contains no channel field at any level, refuting "for every public method
… the constructed command's param contains a channel field". -/
theorem set_rec_v20_no_channel :
    (bodyOf (MethodCall.set_recording_advanced_v20_enable 0)).all
      (fun d => paramHasChannel d.param) = false := rfl

/-- C5 (amended): for every public method except
`set_recording_advanced_v20_enable` (whose param has no channel field at
all), the constructed param carries a channel field — possibly nested one
level inside the operation-specific object — equal to the channel
argument; and every channel parameter defaults to 0, so a
default-argument invocation always yields channel 0. -/
theorem channel_present_and_defaults_zero :
    (∀ (mc : MethodCall) (c : Int), channelArg mc = some c →
      (bodyOf mc).map (fun d => paramChannelVal d.param) = [some (JValue.num c)])
    ∧ defaultBodies.all (fun b => b.all (fun d => paramChannelIsZero d.param)) = true := by
  refine ⟨fun mc c h => ?_, rfl⟩
  cases mc <;> simp [channelArg] at h <;> subst h <;> rfl

/-- C5 (witness): instantiated at `get_alarm_motion(channel=5)`. -/
theorem channel_present_witness :
    (bodyOf (MethodCall.get_alarm_motion 5)).map (fun d => paramChannelVal d.param)
      = [some (JValue.num 5)] :=
  channel_present_and_defaults_zero.1 (MethodCall.get_alarm_motion 5) 5 rfl

/-- C6 (counterexample): `get_zoom_focus` is a get (query) operation yet its
descriptor's action field is 0, refuting "1 used for get (query)
operations". -/
theorem get_zoom_focus_action_zero :
    isQueryMethod (MethodCall.get_zoom_focus 0) = true
    ∧ actionsOf (MethodCall.get_zoom_focus 0) = [0] :=
  ⟨rfl, rfl⟩

/-- C6 (amended): every constructed descriptor's action field is 0 or 1;
set/control operations use 0, and get (query) operations use 1 except for
`get_zoom_focus`, `get_auto_focus` and `get_recording_advanced_v20`,
which use 0. -/
theorem action_zero_or_one (mc : MethodCall) :
    actionsOf mc
      = [if isQueryMethod mc && !isActionZeroQuery mc then (1 : Int) else 0] := by
  cases mc <;> rfl

/-- C7: for the same channel, `stop_ptz`, `stop_zooming` and
`stop_focusing` all hand the dispatcher the identical body
`[{"cmd":"PtzCtrl","action":0,"param":{"channel":channel,"op":"Stop"}}]`,
whose param has exactly the keys `channel` and `op` (no speed, no id). -/
theorem stop_commands_identical {R : Type} (self : Camera R) (channel : Int) :
    stop_ptz self channel = self._execute_command "PtzCtrl"
      [CommandDesc.mk "PtzCtrl" 0 [("channel", JValue.num channel), ("op", JValue.str "Stop")]]
    ∧ stop_zooming self channel = self._execute_command "PtzCtrl"
      [CommandDesc.mk "PtzCtrl" 0 [("channel", JValue.num channel), ("op", JValue.str "Stop")]]
    ∧ stop_focusing self channel = self._execute_command "PtzCtrl"
      [CommandDesc.mk "PtzCtrl" 0 [("channel", JValue.num channel), ("op", JValue.str "Stop")]] :=
  ⟨rfl, rfl, rfl⟩

/-- C8: `set_auto_focus` builds cmd `SetAutoFocus`, action 0, and param
`AutoFocus` whose disable field is 1 when the `disable` argument is true
and 0 when it is false. -/
theorem set_auto_focus_body {R : Type} (self : Camera R) (disable : Bool) (channel : Int) :
    set_auto_focus self disable channel = self._execute_command "SetAutoFocus"
      [CommandDesc.mk "SetAutoFocus" 0
        [("AutoFocus", JValue.obj
          [("channel", JValue.num channel),
           ("disable", JValue.num (if disable then 1 else 0))])]] := rfl

/-- C9: `get_alarm_motion(channel)` builds cmd `GetAlarm`, action 1, param
`Alarm` with the channel and type `"md"`, and returns the dispatcher's
response unmodified (the result type is abstract). -/
theorem get_alarm_motion_body {R : Type} (self : Camera R) (channel : Int) :
    get_alarm_motion self channel = self._execute_command "GetAlarm"
      [CommandDesc.mk "GetAlarm" 1
        [("Alarm", JValue.obj
          [("channel", JValue.num channel), ("type", JValue.str "md")])]] := rfl

/-- C10: `add_preset` and `remove_preset` pass the command name `PtzCtrl` to
`_execute_command` although their descriptor's cmd field is
`SetPtzPreset`; every other public method passes a command name equal to
its descriptor's cmd field. -/
theorem dispatch_name_matches_cmd (mc : MethodCall) :
    (usesSetPreset mc = true → nameOf mc = "PtzCtrl" ∧ cmdsOf mc = ["SetPtzPreset"])
    ∧ (usesSetPreset mc = false → cmdsOf mc = [nameOf mc]) := by
  cases mc <;>
    first
      | exact ⟨fun _ => ⟨rfl, rfl⟩, fun h => (nomatch h)⟩
      | exact ⟨fun h => (nomatch h), fun _ => rfl⟩

/-- C10 (witness): instantiated at `add_preset(1, "pos1", 0)` and
`get_alarm_motion(0)`. -/
theorem dispatch_name_witness :
    (nameOf (MethodCall.add_preset 1 "pos1" 0) = "PtzCtrl"
      ∧ cmdsOf (MethodCall.add_preset 1 "pos1" 0) = ["SetPtzPreset"])
    ∧ cmdsOf (MethodCall.get_alarm_motion 0) = [nameOf (MethodCall.get_alarm_motion 0)] :=
  ⟨(dispatch_name_matches_cmd (MethodCall.add_preset 1 "pos1" 0)).1 rfl,
   (dispatch_name_matches_cmd (MethodCall.get_alarm_motion 0)).2 rfl⟩

end Reolink
